import Mathlib

/-!
Shallow embedding of the availability subsystem of `acecommerce/models.py`
(Axilent/ace-commerce).

Conventions of the embedding:
* Dates are modelled as `Int` ordinals (only their linear order matters).
* Python exceptions are modelled with `Except`: a method that may raise
  returns `Except AceError α`; raising is `Except.error`.
* Persisted state (the database rows behind the Django models) is modelled
  by a `Store` of strategy records; `self.save()` is modelled by writing the
  returned record back into the store.
* A Python `date` value is always truthy, so `if self.start_date ...`
  tests `start_date is not None`.
-/

namespace AceCommerce

/-- The two error kinds of the core: `QuantityExceedsAvailable` (the business
error raised by `CountdownAvailability.record_purchase`) and the lookup /
data-integrity failure raised when `Availability.helper` finds no strategy
record for this identity and code. -/
inductive AceError where
  | quantityExceedsAvailable : AceError
  | lookupError : AceError
deriving DecidableEq, Repr

/-- `class AvailabilityType(models.Model)`: a name and a code string. -/
structure AvailabilityType where
  name : String
  code : String
deriving DecidableEq, Repr

/-- `class Availability(models.Model)`: a dispatch record holding a reference
to an `AvailabilityType`.  `id` is the row's primary key (the identity the
strategy records point back to via their `availability` foreign key). -/
structure Availability where
  id : Nat
  availability_type : AvailabilityType
deriving DecidableEq, Repr

/-- `class BooleanAvailability(models.Model, AvailabilityMixin)`:
`availability = ForeignKey(Availability, unique=True)`,
`is_available = BooleanField(default=True)`. -/
structure BooleanAvailability where
  availability : Nat
  is_available : Bool
deriving DecidableEq, Repr

/-- `class CountdownAvailability(models.Model)`:
`availability = ForeignKey(Availability, unique=True)`,
`num_products = IntegerField(default=0)` (a plain integer field: the type
itself does not forbid negative values). -/
structure CountdownAvailability where
  availability : Nat
  num_products : Int
deriving DecidableEq, Repr

/-- `class DateRangeAvailability(models.Model, AvailabilityMixin)`:
`start_date = DateField(null=True)`, `end_date = DateField(null=True)`.
Note: in the source this model has no `availability` foreign key. -/
structure DateRangeAvailability where
  start_date : Option Int
  end_date : Option Int
deriving DecidableEq, Repr

/-- `BooleanAvailability.available`: `return self.is_available`. -/
def BooleanAvailability.available (b : BooleanAvailability) : Bool :=
  b.is_available

/-- `AvailabilityMixin.quantity_available` (inherited by
`BooleanAvailability`): `return True`. -/
def BooleanAvailability.quantity_available (b : BooleanAvailability)
    (quantity : Int) : Bool :=
  true

/-- `AvailabilityMixin.record_purchase` (inherited by `BooleanAvailability`):
`pass` — the record is left exactly as it was and nothing is saved. -/
def BooleanAvailability.record_purchase (b : BooleanAvailability)
    (quantity : Int) : BooleanAvailability :=
  b

/-- `CountdownAvailability.available`:
`return True if self.num_products > 0 else False`. -/
def CountdownAvailability.available (c : CountdownAvailability) : Bool :=
  if c.num_products > 0 then true else false

/-- `CountdownAvailability.quantity_available`:
`return True if quantity <= self.num_products else False`.  The method only
reads `self.num_products`; it performs no write. -/
def CountdownAvailability.quantity_available (c : CountdownAvailability)
    (quantity : Int) : Bool :=
  if quantity ≤ c.num_products then true else false

/-- `CountdownAvailability.record_purchase`:
`if quantity > self.num_products: raise QuantityExceedsAvailable()` and only
then `self.num_products = max(self.num_products - quantity, 0); self.save()`.
The returned record is the state that `self.save()` persists; the raise
happens before any assignment, so on error no new state exists. -/
def CountdownAvailability.record_purchase (c : CountdownAvailability)
    (quantity : Int) : Except AceError CountdownAvailability :=
  if quantity > c.num_products then
    Except.error AceError.quantityExceedsAvailable
  else
    Except.ok { c with num_products := max (c.num_products - quantity) 0 }

/-- `self.start_date and today < self.start_date`: a Python `date` is always
truthy, so the left conjunct is exactly a `None` check. -/
def tooSoon (start_date : Option Int) (today : Int) : Bool :=
  match start_date with
  | some sd => decide (today < sd)
  | none => false

/-- `self.end_date and today > self.end_date`, with the same truthiness
reading as `tooSoon`. -/
def tooLate (end_date : Option Int) (today : Int) : Bool :=
  match end_date with
  | some ed => decide (today > ed)
  | none => false

/-- `DateRangeAvailability.available`: `today = date.today()`;
`if self.start_date and today < self.start_date: return False`
`elif self.end_date and today > self.end_date: return False`
`else: return True`.  The evaluation date is passed explicitly. -/
def DateRangeAvailability.available (d : DateRangeAvailability)
    (today : Int) : Bool :=
  if tooSoon d.start_date today then false
  else if tooLate d.end_date today then false
  else true

/-- The closed set of strategy variants an `Availability` can resolve to. -/
inductive StrategyHelper where
  | boolean : BooleanAvailability → StrategyHelper
  | countdown : CountdownAvailability → StrategyHelper
  | dateRange : DateRangeAvailability → StrategyHelper
deriving DecidableEq, Repr

/-- Tags naming the three strategy model classes. -/
inductive VariantTag where
  | boolean : VariantTag
  | countdown : VariantTag
  | dateRange : VariantTag
deriving DecidableEq, Repr

/-- Modelled from the spec: `gf` is imported from `acecommerce.utils`, which
is not under `src/`.  Per the spec's registration interface, it resolves an
availability type `code` string to the concrete strategy model class (the
spec names the boolean variant's code "boolean"); an unknown code is a
lookup failure. -/
def gf (code : String) : Option VariantTag :=
  if code = "boolean" then some VariantTag.boolean
  else if code = "countdown" then some VariantTag.countdown
  else if code = "daterange" then some VariantTag.dateRange
  else none

/-- The persisted strategy rows.  Each list models the table of one strategy
model; `objects.get(availability=self)` is a lookup by the `availability`
foreign key, which is declared `unique=True`. -/
structure Store where
  booleanRecords : List BooleanAvailability
  countdownRecords : List CountdownAvailability
deriving DecidableEq, Repr

/-- Row lookup `BooleanAvailability.objects.get(availability=self)`. -/
def Store.getBoolean (st : Store) (aid : Nat) : Option BooleanAvailability :=
  st.booleanRecords.find? (fun r => r.availability == aid)

/-- Row lookup `CountdownAvailability.objects.get(availability=self)`. -/
def Store.getCountdown (st : Store) (aid : Nat) : Option CountdownAvailability :=
  st.countdownRecords.find? (fun r => r.availability == aid)

/-- `self.save()` on a countdown record: the row with the same (unique)
`availability` key is replaced by the updated record. -/
def Store.putCountdown (st : Store) (c : CountdownAvailability) : Store :=
  { st with countdownRecords :=
      st.countdownRecords.map (fun r => if r.availability = c.availability then c else r) }

/-- `Availability.helper`:
`return gf(self.availability_type.code).objects.get(availability=self)`.
A failed row lookup is the lookup / data-integrity error.  The source's
`DateRangeAvailability` has no `availability` foreign key, so the identity
join of the `daterange` branch can never succeed: that branch always fails
the lookup. -/
def Availability.helper (a : Availability) (st : Store) :
    Except AceError StrategyHelper :=
  match gf a.availability_type.code with
  | none => Except.error AceError.lookupError
  | some VariantTag.boolean =>
    match st.getBoolean a.id with
    | none => Except.error AceError.lookupError
    | some b => Except.ok (StrategyHelper.boolean b)
  | some VariantTag.countdown =>
    match st.getCountdown a.id with
    | none => Except.error AceError.lookupError
    | some c => Except.ok (StrategyHelper.countdown c)
  | some VariantTag.dateRange => Except.error AceError.lookupError

/-- Dispatch of `available()` on a resolved helper. -/
def StrategyHelper.available (h : StrategyHelper) (today : Int) : Bool :=
  match h with
  | StrategyHelper.boolean b => b.available
  | StrategyHelper.countdown c => c.available
  | StrategyHelper.dateRange d => d.available today

/-- `Availability.available`: `return self.helper.available()`; any helper
resolution failure propagates unchanged. -/
def Availability.available (a : Availability) (st : Store) (today : Int) :
    Except AceError Bool :=
  match a.helper st with
  | Except.error e => Except.error e
  | Except.ok h => Except.ok (h.available today)

/-- `Availability.record_purchase`:
`self.helper.record_purchase(quantity=quantity)`.  The boolean variant's
inherited `record_purchase` is a `pass` with no save, so the store is
unchanged; the countdown variant's `record_purchase` ends in `self.save()`,
modelled by writing the returned record back; both error kinds propagate
unchanged. -/
def Availability.record_purchase (a : Availability) (st : Store)
    (quantity : Int) : Except AceError Store :=
  match a.helper st with
  | Except.error e => Except.error e
  | Except.ok (StrategyHelper.boolean b) =>
    let _ := b.record_purchase quantity
    Except.ok st
  | Except.ok (StrategyHelper.countdown c) =>
    match c.record_purchase quantity with
    | Except.error e => Except.error e
    | Except.ok c2 => Except.ok (st.putCountdown c2)
  | Except.ok (StrategyHelper.dateRange d) => Except.ok st

/-- Exception semantics of a `record_purchase` call at the caller: on a raise
the store is exactly the store from before the call (the raise aborts the
call before any persistence). -/
def Availability.tryPurchase (a : Availability) (st : Store)
    (quantity : Int) : Store × Option AceError :=
  match a.record_purchase st quantity with
  | Except.ok st2 => (st2, none)
  | Except.error e => (st, some e)

/-- An `Availability` whose type code selects the countdown strategy. -/
def mkCountdownAv (aid : Nat) (tname : String) : Availability :=
  { id := aid, availability_type := { name := tname, code := "countdown" } }

/-- An `Availability` whose type code selects the boolean strategy. -/
def mkBooleanAv (aid : Nat) (tname : String) : Availability :=
  { id := aid, availability_type := { name := tname, code := "boolean" } }

/-- A store holding exactly one countdown record, pointing at `aid`. -/
def countdownStore (aid : Nat) (N : Int) : Store :=
  { booleanRecords := [],
    countdownRecords := [{ availability := aid, num_products := N }] }

/-- A store holding exactly one boolean record, pointing at `aid`. -/
def booleanStore (aid : Nat) (b : Bool) : Store :=
  { booleanRecords := [{ availability := aid, is_available := b }],
    countdownRecords := [] }

/-- The empty store: no strategy rows at all. -/
def emptyStore : Store :=
  { booleanRecords := [], countdownRecords := [] }

/-- One `record_purchase` attempt at the caller: a completed call yields the
saved record, a raised `QuantityExceedsAvailable` leaves the record as it
was (the raise precedes any assignment). -/
def purchaseStep (c : CountdownAvailability) (q : Int) : CountdownAvailability :=
  match c.record_purchase q with
  | Except.ok s2 => s2
  | Except.error _ => c

/-- A sequence of `record_purchase` attempts against one countdown record:
each call either completes (the saved record replaces the state) or raises
`QuantityExceedsAvailable` (the state is untouched). -/
def runPurchases (c : CountdownAvailability) (qs : List Int) :
    CountdownAvailability :=
  qs.foldl purchaseStep c

lemma purchaseStep_nonneg (c : CountdownAvailability) (q : Int)
    (h : 0 ≤ c.num_products) : 0 ≤ (purchaseStep c q).num_products := by
  unfold purchaseStep CountdownAvailability.record_purchase
  by_cases hq : q > c.num_products
  · simpa [hq] using h
  · simp [hq]

end AceCommerce

namespace AceCommerce

/-- C1: for a `CountdownAvailability` with `num_products = N`,
`record_purchase q` raises `QuantityExceedsAvailable` iff `q > N`, and when
it raises, the persisted store is exactly the store from before the call:
the raise precedes any mutation, so a failed attempt is side-effect-free. -/
theorem c1_record_purchase_raises_iff (aid : Nat) (tname : String) (N q : Int) :
    (CountdownAvailability.record_purchase { availability := aid, num_products := N } q
        = Except.error AceError.quantityExceedsAvailable ↔ q > N) ∧
    (q > N →
      Availability.tryPurchase (mkCountdownAv aid tname) (countdownStore aid N) q
        = (countdownStore aid N, some AceError.quantityExceedsAvailable)) := by
  constructor
  · by_cases h : q > N <;>
      simp [CountdownAvailability.record_purchase, h]
  · intro h
    simp [Availability.tryPurchase, Availability.record_purchase,
      Availability.helper, mkCountdownAv, countdownStore, gf,
      Store.getCountdown, CountdownAvailability.record_purchase, h]

/-- Witness for C1 at `N = 1`, `q = 2`. -/
theorem c1_record_purchase_raises_iff_witness :
    Availability.tryPurchase (mkCountdownAv 0 "cd") (countdownStore 0 1) 2
      = (countdownStore 0 1, some AceError.quantityExceedsAvailable) :=
  (c1_record_purchase_raises_iff 0 "cd" 1 2).2 (by decide)

/-- C2: for a `CountdownAvailability` with `num_products = N` and `q ≤ N`,
`record_purchase q` succeeds and sets `num_products` to `N - q`; the
`max (N - q) 0` clamp is not binding under the precondition; and the
updated count is persisted into the store before the call returns. -/
theorem c2_record_purchase_success (aid : Nat) (tname : String) (N q : Int)
    (h : q ≤ N) :
    CountdownAvailability.record_purchase { availability := aid, num_products := N } q
        = Except.ok { availability := aid, num_products := N - q } ∧
    max (N - q) 0 = N - q ∧
    Availability.record_purchase (mkCountdownAv aid tname) (countdownStore aid N) q
        = Except.ok (countdownStore aid (N - q)) := by
  have h1 : ¬ q > N := by omega
  have hmax : max (N - q) 0 = N - q := max_eq_left (by omega)
  refine ⟨?_, hmax, ?_⟩
  · simp [CountdownAvailability.record_purchase, h1, hmax]
  · simp [Availability.record_purchase, Availability.helper, mkCountdownAv,
      countdownStore, gf, Store.getCountdown, Store.putCountdown,
      CountdownAvailability.record_purchase, h1, hmax]

/-- Witness for C2 at `N = 5`, `q = 3` (the spec's concrete scenario). -/
theorem c2_record_purchase_success_witness :
    CountdownAvailability.record_purchase { availability := 0, num_products := 5 } 3
        = Except.ok { availability := 0, num_products := 5 - 3 } ∧
    max (5 - 3 : Int) 0 = 5 - 3 ∧
    Availability.record_purchase (mkCountdownAv 0 "cd") (countdownStore 0 5) 3
        = Except.ok (countdownStore 0 (5 - 3)) :=
  c2_record_purchase_success 0 "cd" 5 3 (by decide)

/-- C3: starting from `num_products ≥ 0`, any sequence of `record_purchase`
calls — each either raising `QuantityExceedsAvailable` (state untouched) or
completing — leaves `num_products ≥ 0`. -/
theorem c3_num_products_nonneg (c : CountdownAvailability) (qs : List Int)
    (h : 0 ≤ c.num_products) : 0 ≤ (runPurchases c qs).num_products := by
  induction qs generalizing c with
  | nil => simpa [runPurchases] using h
  | cons q qs ih =>
    have hstep : runPurchases c (q :: qs) = runPurchases (purchaseStep c q) qs := by
      simp [runPurchases]
    rw [hstep]
    exact ih _ (purchaseStep_nonneg c q h)

/-- Witness for C3: a mix of completing and raising calls from stock 2. -/
theorem c3_num_products_nonneg_witness :
    0 ≤ (runPurchases { availability := 0, num_products := 2 } [1, 5, 1]).num_products :=
  c3_num_products_nonneg { availability := 0, num_products := 2 } [1, 5, 1] (by decide)

/-- C4: `quantity_available q` on a `CountdownAvailability` with
`num_products = N` returns true iff `q ≤ N`.  The method is embedded as a
pure function because the source only reads `self.num_products` and writes
nothing. -/
theorem c4_quantity_available_iff (aid : Nat) (N q : Int) :
    CountdownAvailability.quantity_available
        { availability := aid, num_products := N } q = true ↔ q ≤ N := by
  by_cases h : q ≤ N <;>
    simp [CountdownAvailability.quantity_available, h]

/-- C5: `DateRangeAvailability.available` on day `T` is true iff `T` is not
before a set `start_date` and not after a set `end_date`; a null bound
removes that side's restriction (both null gives true, only start set with
`T` before it gives false, only end set with `T` after it gives false, both
set with `T` within gives true). -/
theorem c5_daterange_truth_table (s e : Option Int) (T : Int) :
    DateRangeAvailability.available { start_date := s, end_date := e } T = true ↔
      (∀ sd, s = some sd → sd ≤ T) ∧ (∀ ed, e = some ed → T ≤ ed) := by
  cases s <;> cases e <;>
    simp [DateRangeAvailability.available, tooSoon, tooLate]

/-- C6: `BooleanAvailability.available` returns the stored flag verbatim;
its inherited `quantity_available` is true for every quantity; its inherited
`record_purchase` is a no-op: the record is unchanged and, through the
facade, the persisted store is unchanged. -/
theorem c6_boolean_no_op (aid : Nat) (tname : String) (b : Bool) (q : Int) :
    BooleanAvailability.available { availability := aid, is_available := b } = b ∧
    BooleanAvailability.quantity_available { availability := aid, is_available := b } q = true ∧
    BooleanAvailability.record_purchase { availability := aid, is_available := b } q
        = { availability := aid, is_available := b } ∧
    Availability.record_purchase (mkBooleanAv aid tname) (booleanStore aid b) q
        = Except.ok (booleanStore aid b) := by
  refine ⟨rfl, rfl, rfl, ?_⟩
  simp [Availability.record_purchase, Availability.helper, mkBooleanAv,
    booleanStore, gf, Store.getBoolean]

/-- C7: the `Availability` facade resolves the strategy record sharing its
identity via `availability_type.code` and delegates: `available()` returns
the resolved instance's `available()`; `record_purchase` delegates to the
resolved instance's `record_purchase`, persisting a completed countdown
purchase and propagating `QuantityExceedsAvailable` unchanged; when no
matching strategy record exists for the identity and code, both calls fail
with the lookup error; both error kinds reach the caller unchanged. -/
theorem c7_dispatch_delegation (aid : Nat) (tname : String) (st : Store)
    (today q : Int) :
    (∀ b, st.getBoolean aid = some b →
        Availability.available (mkBooleanAv aid tname) st today = Except.ok b.available ∧
        Availability.record_purchase (mkBooleanAv aid tname) st q = Except.ok st) ∧
    (∀ c, st.getCountdown aid = some c →
        Availability.available (mkCountdownAv aid tname) st today = Except.ok c.available ∧
        (∀ e, c.record_purchase q = Except.error e →
            Availability.record_purchase (mkCountdownAv aid tname) st q = Except.error e) ∧
        (∀ c2, c.record_purchase q = Except.ok c2 →
            Availability.record_purchase (mkCountdownAv aid tname) st q
              = Except.ok (st.putCountdown c2)) ∧
        (q > c.num_products →
            Availability.record_purchase (mkCountdownAv aid tname) st q
              = Except.error AceError.quantityExceedsAvailable)) ∧
    (st.getBoolean aid = none →
        Availability.available (mkBooleanAv aid tname) st today = Except.error AceError.lookupError ∧
        Availability.record_purchase (mkBooleanAv aid tname) st q = Except.error AceError.lookupError) ∧
    (st.getCountdown aid = none →
        Availability.available (mkCountdownAv aid tname) st today = Except.error AceError.lookupError ∧
        Availability.record_purchase (mkCountdownAv aid tname) st q = Except.error AceError.lookupError) := by
  refine ⟨?_, ?_, ?_, ?_⟩
  · intro b hb
    constructor <;>
      simp [Availability.available, Availability.record_purchase,
        Availability.helper, mkBooleanAv, gf, hb, StrategyHelper.available]
  · intro c hc
    refine ⟨?_, ?_, ?_, ?_⟩
    · simp [Availability.available, Availability.helper, mkCountdownAv, gf,
        hc, StrategyHelper.available]
    · intro e he
      simp [Availability.record_purchase, Availability.helper, mkCountdownAv,
        gf, hc, he]
    · intro c2 hc2
      simp [Availability.record_purchase, Availability.helper, mkCountdownAv,
        gf, hc, hc2]
    · intro hq
      have he : c.record_purchase q = Except.error AceError.quantityExceedsAvailable := by
        simp [CountdownAvailability.record_purchase, hq]
      simp [Availability.record_purchase, Availability.helper, mkCountdownAv,
        gf, hc, he]
  · intro hb
    constructor <;>
      simp [Availability.available, Availability.record_purchase,
        Availability.helper, mkBooleanAv, gf, hb]
  · intro hc
    constructor <;>
      simp [Availability.available, Availability.record_purchase,
        Availability.helper, mkCountdownAv, gf, hc]

/-- Witness for C7: a completed countdown purchase through the facade
persists the decremented record. -/
theorem c7_dispatch_delegation_witness :
    Availability.record_purchase (mkCountdownAv 0 "cd") (countdownStore 0 5) 3
      = Except.ok ((countdownStore 0 5).putCountdown
          { availability := 0, num_products := 2 }) := by
  have h := (c7_dispatch_delegation 0 "cd" (countdownStore 0 5) 0 3).2.1
    { availability := 0, num_products := 5 } (by simp [countdownStore, Store.getCountdown])
  exact h.2.2.1 { availability := 0, num_products := 2 }
    (by simp [CountdownAvailability.record_purchase])

/-- C9: with `num_products = N ≥ 0` and a quantity `q ≤ 0`, the guard
`q > N` is false so `record_purchase q` does not raise, and it sets
`num_products` to `N - q ≥ N`: quantity 0 leaves the stock unchanged and a
strictly negative quantity increases it. -/
theorem c9_nonpositive_quantity (aid : Nat) (N q : Int) (h0 : 0 ≤ N)
    (hq : q ≤ 0) :
    CountdownAvailability.record_purchase { availability := aid, num_products := N } q
        = Except.ok { availability := aid, num_products := N - q } ∧
    N ≤ N - q := by
  have h1 : ¬ q > N := by omega
  have hmax : max (N - q) 0 = N - q := max_eq_left (by omega)
  refine ⟨?_, by omega⟩
  simp [CountdownAvailability.record_purchase, h1, hmax]

/-- Witness for C9 at `N = 2`, `q = -3`: the stock grows to 5. -/
theorem c9_nonpositive_quantity_witness :
    CountdownAvailability.record_purchase { availability := 0, num_products := 2 } (-3)
        = Except.ok { availability := 0, num_products := 2 - (-3) } ∧
    (2 : Int) ≤ 2 - (-3) :=
  c9_nonpositive_quantity 0 2 (-3) (by decide) (by decide)

/-- C10: with both bounds set and `start_date > end_date` (an empty window),
`available` returns false on every evaluation date. -/
theorem c10_empty_window_never_available (sd ed T : Int) (h : ed < sd) :
    DateRangeAvailability.available
        { start_date := some sd, end_date := some ed } T = false := by
  by_cases h1 : T < sd
  · simp [DateRangeAvailability.available, tooSoon, tooLate, h1]
  · have h2 : T > ed := by omega
    simp [DateRangeAvailability.available, tooSoon, tooLate, h1, h2]

/-- Witness for C10: window 5..3 is empty; day 4 is unavailable. -/
theorem c10_empty_window_never_available_witness :
    DateRangeAvailability.available
        { start_date := some 5, end_date := some 3 } 4 = false :=
  c10_empty_window_never_available 5 3 4 (by decide)

end AceCommerce
